import Mathlib

/-!
Shallow embedding of the orchestration core of the research_collosus
repository.

The embedded code:
* `src/app/db/models.py` — the record types `ResearchSession`,
  `ResearchBranch`, `ResearchTask`, `AgentLog`, `KnowledgeFact`.
* `src/app/workers/tasks.py` — `run_research_loop`, the orchestration entry
  point. Its nested `async def _execute_research_loop` (line 54) is a local
  of `_run` bound only when the def statement executes, which is after the
  call site at line 38; the call therefore raises an `UnboundLocalError` on
  every invocation that finds a session, and `except QuotaExhaustedError`
  (line 39) does not catch it. The entry point consequently performs
  exactly one committed write — `status = "running"` — and then crashes:
  the task loop, the quota handler and the synthesis epilogue (lines
  39–119) are dead code, and the model reflects that.
* `src/app/services/gemini_service.py` — `_handle_gemini_error` and
  `synthesize_research`, the reasoning-service client functions the claims
  cite (their external `generate_content` calls are oracles: outcomes are
  parameters). They exist in the source but are unreachable from the
  orchestration loop.
* `src/app/api/routes.py` — `start_research` (plan builder), which runs in
  the HTTP handler and is independent of the worker.

The database is a value of type `DB`: one list per table, in creation
(insertion) order, which mirrors both primary-key order for the tables the
core reads ordered and the append-only character of logs and facts.
Timestamp columns carry no control flow in the core and are omitted; the
JSONB artifact columns `python_code` / `experiment_spec` are never written
by the orchestration core and are omitted as well.
-/

namespace ResearchColossus

/-- Row of `ResearchSession` (models.py). -/
structure ResearchSession where
  id : Nat
  original_prompt : String
  status : String
  final_synthesis : Option String
  deriving DecidableEq, Repr

/-- Row of `ResearchBranch` (models.py). -/
structure ResearchBranch where
  id : Nat
  session_id : Nat
  name : String
  status : String
  deriving DecidableEq, Repr

/-- Row of `ResearchTask` (models.py). `priority` is a Python int, compared as
an ordinary integer, hence `Int`. -/
structure ResearchTask where
  id : Nat
  branch_id : Nat
  description : String
  assigned_to : String
  status : String
  priority : Int
  result : Option String
  dependencies : List String
  deriving DecidableEq, Repr

/-- Row of `AgentLog` (models.py); append-only. -/
structure AgentLog where
  session_id : Nat
  agent_name : String
  message : String
  type : String
  deriving DecidableEq, Repr

/-- Row of `KnowledgeFact` (models.py); append-only, list order is creation
order. -/
structure KnowledgeFact where
  session_id : Nat
  content : String
  source_agent : String
  confidence : Int
  deriving DecidableEq, Repr

/-- The database: one list per table, in insertion order. -/
structure DB where
  sessions : List ResearchSession
  branches : List ResearchBranch
  tasks : List ResearchTask
  logs : List AgentLog
  facts : List KnowledgeFact
  deriving DecidableEq, Repr

/-! ### Row-level database operations

Each models one committed ORM mutation or query of the source. -/

/-- Query `select(ResearchSession).where(ResearchSession.id == session_id)` with
`.one_or_none()` (id is the primary key, so at most one row matches). -/
def findSession (db : DB) (sid : Nat) : Option ResearchSession :=
  db.sessions.find? (fun s => s.id == sid)

/-- Committed write of `research_session.status = st`. -/
def updateSessionStatus (db : DB) (sid : Nat) (st : String) : DB :=
  { db with sessions :=
      db.sessions.map (fun s => if s.id == sid then { s with status := st } else s) }

/-! ### Scheduler (tasks.py lines 56–69)

```
select(ResearchTask).join(ResearchBranch)
  .where(ResearchBranch.session_id == session_id,
         ResearchTask.status == "pending")
  .order_by(ResearchTask.priority.desc(), ResearchTask.id)   -- then .first()
```
-/

/-- The join condition: some branch row has `branch.id == task.branch_id`
and `branch.session_id == sid`. -/
def taskInSession (db : DB) (sid : Nat) (t : ResearchTask) : Bool :=
  db.branches.any (fun b => b.id == t.branch_id && b.session_id == sid)

/-- The rows produced by the WHERE clause, in table order. -/
def pendingTasks (db : DB) (sid : Nat) : List ResearchTask :=
  db.tasks.filter (fun t => taskInSession db sid t && t.status == "pending")

/-- Whether `a` sorts strictly before `b` under `ORDER BY priority DESC, id ASC`. -/
def beats (a b : ResearchTask) : Bool :=
  decide (b.priority < a.priority) ||
    (decide (a.priority = b.priority) && decide (a.id < b.id))

/-- Linear scan for the first row of the ordered result set: the current
best is replaced only by a strictly better row, so among exact ties the
earliest row wins, as a stable sort followed by `.first()` would give. -/
def pickFirst (best : ResearchTask) : List ResearchTask → ResearchTask
  | [] => best
  | t :: ts => pickFirst (if beats t best then t else best) ts

/-- Result of `.first()` on the ordered query: the pending task of the session with
maximal priority, ties broken by least id; `none` iff no row matches. -/
def selectNext (db : DB) (sid : Nat) : Option ResearchTask :=
  match pendingTasks db sid with
  | [] => none
  | t :: ts => some (pickFirst t ts)

/-! ### Order facts about `beats` -/

theorem beats_asymm {a b : ResearchTask} (h : beats a b = true) : beats b a = false := by
  simp only [beats, Bool.or_eq_true, Bool.and_eq_true, decide_eq_true_eq,
    Bool.or_eq_false_iff, Bool.and_eq_false_iff, decide_eq_false_iff_not] at *
  omega

theorem beats_notbeats_trans {a b c : ResearchTask} (hab : beats a b = false)
    (hbc : beats b c = false) : beats a c = false := by
  simp only [beats, Bool.or_eq_false_iff, Bool.and_eq_false_iff,
    decide_eq_false_iff_not] at *
  omega

theorem pickFirst_mem (b : ResearchTask) (l : List ResearchTask) :
    pickFirst b l = b ∨ pickFirst b l ∈ l := by
  induction l generalizing b with
  | nil => exact Or.inl rfl
  | cons t ts ih =>
    simp only [pickFirst]
    rcases ih (if beats t b then t else b) with h | h
    · rw [h]
      cases hb : beats t b
      · simp [hb]
      · simp [hb]
    · exact Or.inr (List.mem_cons_of_mem _ h)

theorem pickFirst_not_beaten (b : ResearchTask) (l : List ResearchTask) :
    beats b (pickFirst b l) = false ∧
      ∀ x ∈ l, beats x (pickFirst b l) = false := by
  induction l generalizing b with
  | nil =>
    refine ⟨?_, by simp⟩
    simp only [pickFirst, beats, Bool.or_eq_false_iff, Bool.and_eq_false_iff,
      decide_eq_false_iff_not]
    omega
  | cons t ts ih =>
    simp only [pickFirst]
    obtain ⟨hb, hrest⟩ := ih (if beats t b then t else b)
    cases h : beats t b
    · simp only [h, Bool.false_eq_true, if_false] at hb hrest ⊢
      refine ⟨hb, ?_⟩
      intro x hx
      rcases List.mem_cons.mp hx with rfl | hx
      · exact beats_notbeats_trans h hb
      · exact hrest x hx
    · simp only [h, if_true] at hb hrest ⊢
      refine ⟨beats_notbeats_trans (beats_asymm h) hb, ?_⟩
      intro x hx
      rcases List.mem_cons.mp hx with rfl | hx
      · exact hb
      · exact hrest x hx

theorem selectNext_none_iff (db : DB) (sid : Nat) :
    selectNext db sid = none ↔ pendingTasks db sid = [] := by
  unfold selectNext
  cases pendingTasks db sid <;> simp

theorem selectNext_mem {db : DB} {sid : Nat} {t : ResearchTask}
    (h : selectNext db sid = some t) : t ∈ pendingTasks db sid := by
  unfold selectNext at h
  cases hp : pendingTasks db sid with
  | nil => rw [hp] at h; exact absurd h (by simp)
  | cons x xs =>
    rw [hp] at h
    simp only [Option.some.injEq] at h
    rcases pickFirst_mem x xs with hm | hm
    · rw [← h, hm]; exact List.mem_cons_self _ _
    · rw [← h]; exact List.mem_cons_of_mem _ hm

theorem selectNext_best {db : DB} {sid : Nat} {t : ResearchTask}
    (h : selectNext db sid = some t) :
    ∀ u ∈ pendingTasks db sid, beats u t = false := by
  unfold selectNext at h
  cases hp : pendingTasks db sid with
  | nil => rw [hp] at h; exact absurd h (by simp)
  | cons x xs =>
    rw [hp] at h
    simp only [Option.some.injEq] at h
    intro u hu
    obtain ⟨hb, hrest⟩ := pickFirst_not_beaten x xs
    rcases List.mem_cons.mp hu with rfl | hu
    · rw [← h]; exact hb
    · rw [← h]; exact hrest u hu

/-- Specification of the scheduler. For every session and every non-empty set of pending tasks of
any branch of that session, the scheduler returns a pending task of the
session whose priority is maximal, ties of equal maximal priority broken by
the smallest task id; and it returns `none` exactly when no pending task
exists across the session. -/
theorem selectNext_spec (db : DB) (sid : Nat) :
    (selectNext db sid = none ↔ pendingTasks db sid = []) ∧
      (∀ t, selectNext db sid = some t →
        t ∈ pendingTasks db sid ∧
          ∀ u ∈ pendingTasks db sid,
            u.priority < t.priority ∨ (u.priority = t.priority ∧ t.id ≤ u.id)) := by
  refine ⟨selectNext_none_iff db sid, ?_⟩
  intro t ht
  refine ⟨selectNext_mem ht, ?_⟩
  intro u hu
  have := selectNext_best ht u hu
  simp only [beats, Bool.or_eq_false_iff, Bool.and_eq_false_iff,
    decide_eq_false_iff_not] at this
  omega

/-! ### Reasoning-service client (gemini_service.py)

The external `client.models.generate_content` calls are opaque: each
outcome is a parameter (`Except String ...`, the `.error` side carrying
`str(e)` of the raised exception). `get_client()` raises a RuntimeError
when the `GEMINI_API_KEY` environment variable is unset; the environment is
the Boolean parameter `apiKey`. -/

/-- A Python exception as seen by the orchestration loop: the dedicated
`QuotaExhaustedError` versus everything else. -/
inductive PyError where
  | quotaExhausted (msg : String)
  | other (msg : String)
  deriving DecidableEq, Repr

/-- Message `str(e)` of the RuntimeError raised by `get_client()` without an API
key. -/
def noApiKeyMsg : String := "GEMINI_API_KEY environment variable is not set"

/-- Substring test on character lists (Python `in` on strings). -/
def subListOf (p : List Char) : List Char → Bool
  | [] => p.isPrefixOf []
  | c :: rest => p.isPrefixOf (c :: rest) || subListOf p rest

/-- Python `pat in s`. -/
def strContainsSub (s pat : String) : Bool :=
  subListOf pat.data s.data

/-- Lower-casing of one character in the ASCII range (all markers
`_handle_gemini_error` compares against are ASCII). -/
def charLower (c : Char) : Char :=
  if 65 ≤ c.toNat ∧ c.toNat ≤ 90 then Char.ofNat (c.toNat + 32) else c

/-- Python `str.lower()`, character-wise over the string. -/
def strLower (s : String) : String :=
  ⟨s.data.map charLower⟩

/-- The quota test of `_handle_gemini_error`:
`"429" in error_str or "resource_exhausted" in error_str or "quota" in
error_str` where `error_str = str(e).lower()`. -/
def isQuotaError (e : String) : Bool :=
  let error_str := strLower e
  strContainsSub error_str "429" || strContainsSub error_str "resource_exhausted" ||
    strContainsSub error_str "quota"

/-- The message of the `QuotaExhaustedError` raised by
`_handle_gemini_error` for a given operation name. -/
def quotaMessage (operation : String) : String :=
  "Gemini API quota exhausted during " ++ operation ++
    ". Please wait for quota reset or upgrade to a paid plan. " ++
    "See: https://ai.google.dev/pricing"

/-- Model of `_handle_gemini_error(e, operation)`: raise `QuotaExhaustedError` on a
quota-looking message, re-raise `e` unchanged otherwise. -/
def handleGeminiError (e : String) (operation : String) : PyError :=
  if isQuotaError e then .quotaExhausted (quotaMessage operation) else .other e

/-- Payload dict `{"source_agent": ..., "content": ..., "confidence": ...}`
that the loop epilogue would build before synthesis (tasks.py lines
107–110); unreachable, kept as the payload type of `Event.synthTrigger`. -/
structure FactPayload where
  source_agent : String
  content : String
  confidence : Int
  deriving DecidableEq, Repr

/-- Model of `synthesize_research(original_prompt, knowledge_facts)`: `get_client()`
is called before the try block, so a missing API key raises an uncaught
RuntimeError; any exception of the generate call itself is caught and
turned into the fixed fallback text; an empty response text falls back to
"Synthesis failed." via Python `or`. -/
def synthesize_research (apiKey : Bool) (gen : Except String String) :
    Except String String :=
  if apiKey then
    match gen with
    | .ok text => .ok (if text = "" then "Synthesis failed." else text)
    | .error _ => .ok "Could not synthesize final report."
  else
    .error noApiKeyMsg

/-! ### Orchestration entry point (tasks.py)

`run_research_loop(session_id)` looks the session up, commits
`status = "running"` and then executes
`await _execute_research_loop(session, research_session, session_id)`
(line 38). At that point `_execute_research_loop` is an unbound local of
`_run`: the nested `async def` that would bind it stands after the
`async with` block, at line 54, and has not executed yet, so the call
raises `UnboundLocalError`. The handler at line 39 catches only
`QuotaExhaustedError`, so the error escapes with the `running` write
already committed; the task loop, the quota handler and the synthesis
epilogue (lines 39–119) are dead code. The oracle parameters (`oracle` for
the reasoning calls, `synthGen` for the synthesis call, `apiKey` for the
environment, `fuel` for a loop bound) are the inputs that dead code would
consume; the run never consults them. -/

/-- Vocabulary of the durable writes and external calls the worker code
could perform. A run as written only ever emits `sessionWrite`. -/
inductive Event where
  | markRunning (tid : Nat)
  | agentCall (desc role context : String)
  | storeResult (tid : Nat) (content : String)
  | markDone (tid : Nat)
  | logWrite (l : AgentLog)
  | synthTrigger (origPrompt : String) (facts : List FactPayload)
  | sessionWrite (sid : Nat) (st : String)
  deriving DecidableEq, Repr

/-- Result of a run: final database, ordered event trace, number of
reasoning-service invocations, the uncaught exception if one escaped, and
whether a loop bound was exhausted (never: the loop is unreachable). -/
structure RunResult where
  db : DB
  trace : List Event
  calls : Nat
  error : Option PyError
  fuelOut : Bool
  deriving DecidableEq, Repr

/-- Marker for the `UnboundLocalError` raised at tasks.py line 38. Its
exact wording differs across Python versions; nothing in the program
catches or inspects it. -/
def unboundLocalMsg : String :=
  "UnboundLocalError: local variable _execute_research_loop referenced before assignment"

/-- Model of `run_research_loop(session_id)` (tasks.py lines 15–52): look
the session up and return silently when absent; otherwise commit
`status = "running"` and crash with the uncaught `UnboundLocalError` at the
call of the not-yet-bound `_execute_research_loop`. No reasoning call is
made, no log or fact is written, no task is touched, and no further
session-status write occurs. -/
def run_research_loop (_apiKey : Bool)
    (_oracle : Nat → Except String (String × List String))
    (_synthGen : Except String String) (_fuel : Nat) (session_id : Nat)
    (db : DB) : RunResult :=
  match findSession db session_id with
  | none => ⟨db, [], 0, none, false⟩
  | some _research_session =>
    let db1 := updateSessionStatus db session_id "running"
    ⟨db1, [.sessionWrite session_id "running"], 0,
      some (.other unboundLocalMsg), false⟩

/-- Session status values written during a trace, in order. -/
def statusWrites (tr : List Event) : List String :=
  tr.filterMap (fun e => match e with | .sessionWrite _ st => some st | _ => none)

/-- Task ids whose `running` write appears in a trace: the event the
scheduler selection would emit. No run as written ever emits one. -/
def selectedIds (tr : List Event) : List Nat :=
  tr.filterMap (fun e => match e with | .markRunning tid => some tid | _ => none)

/-- Number of times the synthesis step was triggered during a trace. -/
def synthCount (tr : List Event) : Nat :=
  (tr.filter (fun e => match e with | .synthTrigger _ _ => true | _ => false)).length

/-! ### Lemmas about session lookup and the entry point -/

theorem find?_map_of_id_preserved (g : ResearchSession → ResearchSession)
    (hid : ∀ s, (g s).id = s.id) (l : List ResearchSession) (sid : Nat) :
    (l.map g).find? (fun s => s.id == sid) =
      (l.find? (fun s => s.id == sid)).map g := by
  induction l with
  | nil => rfl
  | cons s ss ih =>
    have key : ((g s).id == sid) = (s.id == sid) := by rw [hid]
    cases hpa : (s.id == sid)
    · simp [List.find?, key, hpa, ih]
    · simp [List.find?, key, hpa]

theorem findSession_updateSessionStatus {db : DB} {sid : Nat} {s : ResearchSession}
    (st : String) (h : findSession db sid = some s) :
    findSession (updateSessionStatus db sid st) sid = some { s with status := st } := by
  have hid : ∀ x : ResearchSession,
      ((fun x => if x.id == sid then { x with status := st } else x) x).id = x.id := by
    intro x
    by_cases hx : x.id = sid <;> simp [hx]
  have hmap := find?_map_of_id_preserved _ hid db.sessions sid
  have hs := List.find?_some h
  unfold findSession updateSessionStatus at *
  rw [hmap, h, Option.map_some']
  simp only [hs, if_true]

/-! ### Concrete fixtures used by witnesses and counterexamples -/

def oracleOk : Nat → Except String (String × List String) :=
  fun _ => Except.ok ("result text", [])

def oracleQuota : Nat → Except String (String × List String) :=
  fun _ => Except.error "429 RESOURCE_EXHAUSTED: rate limit"

def dbOneSession : DB := ⟨[⟨1, "prompt X", "pending", none⟩], [], [], [], []⟩

def dbFailedSession : DB := ⟨[⟨1, "prompt X", "failed", none⟩], [], [], [], []⟩

def taskA : ResearchTask := ⟨1, 1, "descA", "Physicist", "pending", 8, none, []⟩

def taskB : ResearchTask := ⟨2, 1, "descB", "Chemist", "pending", 3, none, []⟩

def dbTwoTasks : DB :=
  ⟨[⟨1, "prompt X", "pending", none⟩], [⟨1, 1, "B1", "active"⟩], [taskA, taskB], [], []⟩

def taskC : ResearchTask := ⟨1, 1, "descC", "Analyst", "pending", 9, none, ["task-1"]⟩

def dbPausedBranch : DB :=
  ⟨[⟨1, "prompt X", "running", none⟩], [⟨1, 1, "B1", "paused"⟩], [taskC], [], []⟩

/-! ### The claims -/

/-- Claim C1. For every session and every non-empty set of pending tasks
belonging to any branch of that session, the scheduler's next-task
selection returns the pending task with strictly maximal priority, breaking
ties of equal maximal priority by the smallest task id; it returns `none`
exactly when no pending task exists across the session. (Stated above as
`selectNext_spec`; restated here as the claim theorem.) -/
theorem claim_scheduler_max_priority (db : DB) (sid : Nat) :
    (selectNext db sid = none ↔ pendingTasks db sid = []) ∧
      (∀ t, selectNext db sid = some t →
        t ∈ pendingTasks db sid ∧
          ∀ u ∈ pendingTasks db sid,
            u.priority < t.priority ∨ (u.priority = t.priority ∧ t.id ≤ u.id)) :=
  selectNext_spec db sid

theorem claim_scheduler_max_priority_witness :
    selectNext dbTwoTasks 1 = some taskA ∧ taskA ∈ pendingTasks dbTwoTasks 1 ∧
      (taskB.priority < taskA.priority ∨
        (taskB.priority = taskA.priority ∧ taskA.id ≤ taskB.id)) := by
  have h := (claim_scheduler_max_priority dbTwoTasks 1).2 taskA (by decide)
  exact ⟨by decide, h.1, h.2 taskB (by decide)⟩

/-- Claim C10. Invoking the orchestration loop entry point with a session id
matching no session record returns without mutating anything: the database
is returned untouched, the trace is empty (so no status change, no task
mutation, no log or fact write) and no reasoning call was made. -/
theorem claim_missing_session_no_effect (apiKey : Bool)
    (oracle : Nat → Except String (String × List String))
    (synthGen : Except String String) (fuel sid : Nat) (db : DB)
    (h : findSession db sid = none) :
    run_research_loop apiKey oracle synthGen fuel sid db
      = ⟨db, [], 0, none, false⟩ := by
  simp only [run_research_loop, h]

theorem claim_missing_session_no_effect_witness :
    findSession dbOneSession 99 = none ∧
      run_research_loop true oracleOk (Except.ok "r") 3 99 dbOneSession
        = ⟨dbOneSession, [], 0, none, false⟩ :=
  ⟨by decide,
    claim_missing_session_no_effect true oracleOk (Except.ok "r") 3 99 dbOneSession
      (by decide)⟩

/-- Claim C9 (code bug). The claim — invoking the loop on a session with
zero pending tasks performs no task mutation and triggers synthesis exactly
once — describes the dead loop epilogue. Evaluated on the program as
written: the task table is indeed untouched, but synthesis is triggered
zero times, not once: the run crashes with the uncaught `UnboundLocalError`
right after the `running` write, before the loop body and its synthesis
epilogue. -/
theorem claim_no_pending_idempotent_bug :
    pendingTasks dbOneSession 1 = [] ∧
      (run_research_loop true oracleOk (Except.ok "r") 3 1 dbOneSession).db.tasks
          = dbOneSession.tasks ∧
        synthCount (run_research_loop true oracleOk (Except.ok "r") 3 1
            dbOneSession).trace = 0 ∧
          (findSession (run_research_loop true oracleOk (Except.ok "r") 3 1
              dbOneSession).db 1).map ResearchSession.status = some "running" ∧
            (run_research_loop true oracleOk (Except.ok "r") 3 1 dbOneSession).error
              = some (.other unboundLocalMsg) := by
  decide

/-- Claim C5 (code bug). The claim describes the five executor steps —
`running` write before the call, context from the session facts in creation
order, result store, `done` write, bounded success log — for every task the
executor processes. The program as written processes no task at all: with
two pending tasks the run emits only the session `running` write, makes
zero reasoning calls, and leaves the task table and the log table
untouched. -/
theorem claim_executor_step_order_bug :
    pendingTasks dbTwoTasks 1 = [taskA, taskB] ∧
      (run_research_loop true oracleOk (Except.ok "r") 3 1 dbTwoTasks).trace
          = [Event.sessionWrite 1 "running"] ∧
        (run_research_loop true oracleOk (Except.ok "r") 3 1 dbTwoTasks).db.tasks
            = dbTwoTasks.tasks ∧
          (run_research_loop true oracleOk (Except.ok "r") 3 1 dbTwoTasks).db.logs
              = [] ∧
            (run_research_loop true oracleOk (Except.ok "r") 3 1 dbTwoTasks).calls
              = 0 := by
  decide

/-- Counterexample to claim C3 as stated: the entry point is unguarded, so
invoking it on a session already in the terminal status `failed` commits a
`failed → running` transition (the status write at tasks.py line 34
precedes the crash at line 38) — a core operation changes a terminal
status. -/
theorem claim_terminal_status_counterexample :
    (findSession dbFailedSession 1).map ResearchSession.status = some "failed" ∧
      (findSession (run_research_loop true oracleOk (Except.ok "r") 1 1
            dbFailedSession).db 1).map ResearchSession.status = some "running" := by
  decide

/-- Claim C3, amended. The loop entry point moves any found session —
pending or terminal — to `running` at loop start, and that is the only
session-status write a run ever performs: the call into the loop body
raises an uncaught `UnboundLocalError` before any task processing, so the
`running → completed` and `running → failed` arcs of the claimed state
machine never occur in the program as written, and terminal statuses are
not absorbing — a re-invocation resets `failed` or `completed` to
`running`, as the counterexample shows. -/
theorem claim_status_machine_per_run (apiKey : Bool)
    (oracle : Nat → Except String (String × List String))
    (synthGen : Except String String) (fuel sid : Nat) (db : DB)
    (s : ResearchSession) (hs : findSession db sid = some s) :
    statusWrites (run_research_loop apiKey oracle synthGen fuel sid db).trace
        = ["running"] ∧
      findSession (run_research_loop apiKey oracle synthGen fuel sid db).db sid
          = some { s with status := "running" } ∧
        (run_research_loop apiKey oracle synthGen fuel sid db).error
          = some (.other unboundLocalMsg) := by
  simp only [run_research_loop, hs]
  exact ⟨by simp [statusWrites], findSession_updateSessionStatus "running" hs,
    by trivial⟩

theorem claim_status_machine_per_run_witness :
    (findSession dbOneSession 1).isSome = true ∧
      statusWrites (run_research_loop true oracleOk (Except.ok "r") 3 1
          dbOneSession).trace = ["running"] ∧
        findSession (run_research_loop true oracleOk (Except.ok "r") 3 1
            dbOneSession).db 1 = some ⟨1, "prompt X", "running", none⟩ := by
  have h := claim_status_machine_per_run true oracleOk (Except.ok "r") 3 1 dbOneSession
    ⟨1, "prompt X", "pending", none⟩ (by decide)
  exact ⟨by decide, h.1, h.2.1⟩

/-- Claim C2 (code bug). The claim describes the quota-halt path of the
dead loop: the reasoning call for task N raises quota exhaustion, tasks
N+1..M stay pending, the session becomes `failed`, exactly one error log is
written. The classifier would indeed turn a 429 response into the dedicated
`QuotaExhaustedError`, but no reasoning call is ever made: the run crashes
with the uncaught `UnboundLocalError` before the first call, the session
stays `running` (never `failed`), and no log of any category is written.
(The pending tasks do remain untouched — because nothing runs at all.) -/
theorem claim_quota_halts_session_bug :
    isQuotaError "429 RESOURCE_EXHAUSTED: rate limit" = true ∧
      handleGeminiError "429 RESOURCE_EXHAUSTED: rate limit" "execute_agent_task"
          = .quotaExhausted (quotaMessage "execute_agent_task") ∧
        (run_research_loop true oracleQuota (Except.ok "r") 3 1 dbTwoTasks).calls = 0 ∧
          (findSession (run_research_loop true oracleQuota (Except.ok "r") 3 1
              dbTwoTasks).db 1).map ResearchSession.status = some "running" ∧
            (run_research_loop true oracleQuota (Except.ok "r") 3 1 dbTwoTasks).db.logs
                = [] ∧
              (run_research_loop true oracleQuota (Except.ok "r") 3 1 dbTwoTasks).db.tasks
                  = dbTwoTasks.tasks ∧
                (run_research_loop true oracleQuota (Except.ok "r") 3 1 dbTwoTasks).error
                  = some (.other unboundLocalMsg) := by
  decide

/-! ### Branch pause and dependency lists are invisible to the scheduler
(claim C6) -/

/-- An arbitrary external re-labelling of every branch status — this covers
in particular the pause/resume toggle of the `pause_branch` route. -/
def pauseBranches (f : ResearchBranch → String) (db : DB) : DB :=
  { db with branches := db.branches.map (fun b => { b with status := f b }) }

/-- An arbitrary rewrite of every task dependency list. -/
def setDeps (g : ResearchTask → List String) (db : DB) : DB :=
  { db with tasks := db.tasks.map (fun t => { t with dependencies := g t }) }

theorem taskInSession_pause (f : ResearchBranch → String) (db : DB) (sid : Nat)
    (t : ResearchTask) :
    taskInSession (pauseBranches f db) sid t = taskInSession db sid t := by
  simp only [taskInSession, pauseBranches, List.any_map]
  rfl

theorem pendingTasks_pause (f : ResearchBranch → String) (db : DB) (sid : Nat) :
    pendingTasks (pauseBranches f db) sid = pendingTasks db sid := by
  unfold pendingTasks
  rw [show (pauseBranches f db).tasks = db.tasks from rfl]
  apply List.filter_congr
  intro t _
  rw [taskInSession_pause]

theorem selectNext_pause (f : ResearchBranch → String) (db : DB) (sid : Nat) :
    selectNext (pauseBranches f db) sid = selectNext db sid := by
  unfold selectNext
  rw [pendingTasks_pause]

theorem pickFirst_map_deps (g : ResearchTask → List String) (b : ResearchTask)
    (l : List ResearchTask) :
    pickFirst { b with dependencies := g b }
        (l.map (fun t => { t with dependencies := g t }))
      = (fun t => { t with dependencies := g t }) (pickFirst b l) := by
  induction l generalizing b with
  | nil => rfl
  | cons t ts ih =>
    simp only [List.map_cons, pickFirst]
    rw [show beats { t with dependencies := g t } { b with dependencies := g b }
      = beats t b from rfl]
    cases hb : beats t b
    · simp only [Bool.false_eq_true, if_false]
      exact ih b
    · simp only [if_true]
      exact ih t

theorem selectNext_setDeps (g : ResearchTask → List String) (db : DB) (sid : Nat) :
    selectNext (setDeps g db) sid
      = (selectNext db sid).map (fun t => { t with dependencies := g t }) := by
  have hp : pendingTasks (setDeps g db) sid
      = (pendingTasks db sid).map (fun t => { t with dependencies := g t }) := by
    unfold pendingTasks
    rw [show (setDeps g db).tasks = db.tasks.map
      (fun t => { t with dependencies := g t }) from rfl]
    rw [List.filter_map]
    rfl
  unfold selectNext
  rw [hp]
  cases pendingTasks db sid with
  | nil => rfl
  | cons t ts =>
    simp only [List.map_cons]
    rw [pickFirst_map_deps]
    rfl

/-- Claim C6 (code bug). The scheduler eligibility policy — the ordered
query — is decided only by status `pending` and the (priority, id) order:
selection is invariant under arbitrary branch-status re-labelling (a paused
owning branch changes nothing) and rewriting every dependency list changes
the selected task only in its dependency field. On the concrete
paused-branch scenario the query would select task C; the program as
written, however, never reaches the scheduler — the run on that database
selects and executes nothing and leaves C pending. -/
theorem claim_eligibility_ignores_pause_and_deps (db : DB) (sid : Nat)
    (f : ResearchBranch → String) (g : ResearchTask → List String) :
    selectNext (pauseBranches f db) sid = selectNext db sid ∧
      selectNext (setDeps g db) sid
          = (selectNext db sid).map (fun t => { t with dependencies := g t }) ∧
        selectNext dbPausedBranch 1 = some taskC ∧
          selectedIds (run_research_loop true oracleOk (Except.ok "r") 3 1
              dbPausedBranch).trace = [] ∧
            (run_research_loop true oracleOk (Except.ok "r") 3 1 dbPausedBranch).db.tasks
              = dbPausedBranch.tasks :=
  ⟨selectNext_pause f db sid, selectNext_setDeps g db sid, by decide, by decide,
    by decide⟩

/-! ### Plan builder: `start_research` (routes.py lines 25–79)

The `orchestrate_plan` call is external: its outcome is the `plan`
parameter, either the parsed list of branch descriptors or the exception
that escaped (`QuotaExhaustedError` or anything else). Primary keys are
assigned by the database on commit; the model assigns max-plus-one, which
matches the autoincrement behaviour the code relies on. -/

/-- One task descriptor of the planning response: a JSON dict whose keys
may be absent. -/
structure TaskData where
  description : Option String
  assigned_to : Option String
  status : Option String
  priority : Option Int
  dependencies : Option (List String)
  deriving DecidableEq, Repr

/-- One branch descriptor of the planning response. -/
structure BranchData where
  name : Option String
  tasks : List TaskData
  deriving DecidableEq, Repr

/-- Maximum of a list of ids (zero when empty). -/
def maxId (ids : List Nat) : Nat := ids.foldl max 0

/-- The primary key the database assigns to the next session row. -/
def nextSessionId (db : DB) : Nat := maxId (db.sessions.map (fun s => s.id)) + 1

/-- The `ResearchTask(...)` constructor call of the persistence loop:
`status` defaults to `"pending"`, `priority` to `5`, and
`task_data.get("dependencies") or []` collapses an absent or null list to
the empty list. -/
def mkTask (tid bid : Nat) (td : TaskData) : ResearchTask :=
  ⟨tid, bid, td.description.getD "", td.assigned_to.getD "Agent",
    td.status.getD "pending", td.priority.getD 5, none, td.dependencies.getD []⟩

/-- Add one task row (`session.add(task)` inside the inner loop, committed
with the batch). -/
def addTask (bid : Nat) (db : DB) (td : TaskData) : DB :=
  { db with tasks := db.tasks ++ [mkTask (maxId (db.tasks.map (fun t => t.id)) + 1) bid td] }

/-- Persist one branch descriptor: one `ResearchBranch` row with status
`"active"`, then its task rows. -/
def addBranch (sid : Nat) (db : DB) (bd : BranchData) : DB :=
  let bid := maxId (db.branches.map (fun b => b.id)) + 1
  let db1 := { db with branches :=
    db.branches ++ [⟨bid, sid, bd.name.getD "Branch", "active"⟩] }
  bd.tasks.foldl (addTask bid) db1

/-- The `for branch_data in branches:` persistence loop. -/
def persistBranches (sid : Nat) (bds : List BranchData) (db : DB) : DB :=
  bds.foldl (addBranch sid) db

/-- Python `payload.get("prompt", "").strip()`: strip leading and trailing
whitespace, character-wise over the string contents. -/
def strStrip (s : String) : String :=
  ⟨((s.data.dropWhile Char.isWhitespace).reverse.dropWhile Char.isWhitespace).reverse⟩

/-- What `start_research` returns to its caller. -/
inductive StartResult where
  | ok (session_id : Nat)
  | promptRequired
  | httpError (status_code : Nat) (detail : String)
  | crashed (msg : String)
  deriving DecidableEq, Repr

/-- Model of `start_research(payload)` (routes.py lines 25–79): strip and
check the prompt, create the session row (status `pending`), call the
planner; on `QuotaExhaustedError` mark the session `failed` and raise
HTTP 503 with the error text; on any other exception propagate (the session
row keeps status `pending`); on success persist all branch and task rows
and enqueue `run_research_loop` for the new session id. -/
def start_research (plan : Except PyError (List BranchData))
    (payload_prompt : String) (db : DB) : StartResult × DB :=
  let prompt := strStrip payload_prompt
  if prompt = "" then (.promptRequired, db)
  else
    let sid := nextSessionId db
    let db1 := { db with sessions := db.sessions ++ [⟨sid, prompt, "pending", none⟩] }
    match plan with
    | .error (.quotaExhausted msg) =>
      (.httpError 503 msg, updateSessionStatus db1 sid "failed")
    | .error (.other msg) => (.crashed msg, db1)
    | .ok branches => (.ok sid, persistBranches sid branches db1)

theorem le_foldl_max (l : List Nat) : ∀ a, a ≤ l.foldl max a := by
  induction l with
  | nil => intro a; exact Nat.le_refl a
  | cons y ys ih =>
    intro a
    exact Nat.le_trans (Nat.le_max_left a y) (ih (max a y))

theorem le_maxId {l : List Nat} {x : Nat} (h : x ∈ l) : x ≤ maxId l := by
  unfold maxId
  generalize 0 = a
  induction l generalizing a with
  | nil => exact absurd h (List.not_mem_nil x)
  | cons y ys ih =>
    rcases List.mem_cons.mp h with rfl | h
    · exact Nat.le_trans (Nat.le_max_right a x) (le_foldl_max ys (max a x))
    · exact ih h _

theorem map_eq_self_of_eq {α : Type} (l : List α) (f : α → α)
    (h : ∀ x ∈ l, f x = x) : l.map f = l := by
  induction l with
  | nil => rfl
  | cons x xs ih =>
    rw [List.map_cons, h x (List.mem_cons_self x xs),
      ih (fun y hy => h y (List.mem_cons_of_mem x hy))]

/-- Claim C7. If the planning call reports quota exhaustion during session
creation, the session is marked `failed` immediately, no branch or task
record is created, and a service-unavailable-style error (HTTP 503 carrying
the quota message) is surfaced synchronously to the caller. -/
theorem claim_plan_quota_fails_session (msg : String) (payload_prompt : String)
    (db : DB) (hp : strStrip payload_prompt ≠ "") :
    (start_research (Except.error (.quotaExhausted msg)) payload_prompt db).1
        = .httpError 503 msg ∧
      (start_research (Except.error (.quotaExhausted msg)) payload_prompt db).2.branches
          = db.branches ∧
        (start_research (Except.error (.quotaExhausted msg)) payload_prompt db).2.tasks
            = db.tasks ∧
          (start_research (Except.error (.quotaExhausted msg)) payload_prompt db).2.sessions
            = db.sessions
              ++ [⟨nextSessionId db, strStrip payload_prompt, "failed", none⟩] := by
  have hne : ∀ s ∈ db.sessions,
      (if (s.id == nextSessionId db) = true
        then { s with status := "failed" } else s) = s := by
    intro s hs
    have hle : s.id ≤ maxId (db.sessions.map (fun s => s.id)) :=
      le_maxId (List.mem_map_of_mem (fun s => s.id) hs)
    have hbeq : (s.id == nextSessionId db) = false := by
      simp only [nextSessionId, beq_eq_false_iff_ne, ne_eq]
      omega
    simp [hbeq]
  have hsess : (start_research (Except.error (.quotaExhausted msg))
      payload_prompt db).2.sessions
        = db.sessions ++ [⟨nextSessionId db, strStrip payload_prompt, "failed", none⟩] := by
    simp only [start_research, if_neg hp]
    show ((db.sessions
        ++ [(⟨nextSessionId db, strStrip payload_prompt, "pending", none⟩
              : ResearchSession)]).map
      (fun s => if s.id == nextSessionId db then { s with status := "failed" } else s))
        = _
    rw [List.map_append, map_eq_self_of_eq _ _ hne]
    simp
  refine ⟨?_, ?_, ?_, hsess⟩ <;> simp only [start_research, if_neg hp] <;> rfl

theorem claim_plan_quota_fails_session_witness :
    strStrip "  ask me  " ≠ "" ∧
      (start_research (Except.error (.quotaExhausted "quota gone")) "  ask me  "
            dbOneSession).1 = .httpError 503 "quota gone" ∧
        (start_research (Except.error (.quotaExhausted "quota gone")) "  ask me  "
            dbOneSession).2.branches = dbOneSession.branches ∧
          (start_research (Except.error (.quotaExhausted "quota gone")) "  ask me  "
              dbOneSession).2.tasks = dbOneSession.tasks ∧
            (start_research (Except.error (.quotaExhausted "quota gone")) "  ask me  "
                dbOneSession).2.sessions
              = dbOneSession.sessions
                ++ [⟨nextSessionId dbOneSession, "ask me", "failed", none⟩] := by
  have h := claim_plan_quota_fails_session "quota gone" "  ask me  " dbOneSession
    (by decide)
  have h4 := h.2.2.2
  rw [show strStrip "  ask me  " = "ask me" from by decide] at h4
  exact ⟨by decide, h.1, h.2.1, h.2.2.1, h4⟩

/-! ### Claim C8: plan persistence with defaults -/

/-- Projection of a branch row to the fields the plan builder fills from a
branch descriptor. -/
def branchProj (b : ResearchBranch) : Nat × String × String :=
  (b.session_id, b.name, b.status)

/-- Projection of a task row to the fields the plan builder fills from a
task descriptor. -/
def taskProj (t : ResearchTask) : String × String × String × Int × List String :=
  (t.description, t.assigned_to, t.status, t.priority, t.dependencies)

/-- The row contents a task descriptor must produce: each absent field
replaced by its documented default. -/
def tdProj (td : TaskData) : String × String × String × Int × List String :=
  (td.description.getD "", td.assigned_to.getD "Agent", td.status.getD "pending",
    td.priority.getD 5, td.dependencies.getD [])

theorem addTask_fold_spec (bid : Nat) :
    ∀ (tds : List TaskData) (db : DB),
      (tds.foldl (addTask bid) db).tasks.map taskProj
          = db.tasks.map taskProj ++ tds.map tdProj
        ∧ (tds.foldl (addTask bid) db).branches = db.branches
        ∧ (tds.foldl (addTask bid) db).sessions = db.sessions := by
  intro tds
  induction tds with
  | nil => intro db; exact ⟨by simp, rfl, rfl⟩
  | cons td tds ih =>
    intro db
    obtain ⟨h1, h2, h3⟩ := ih (addTask bid db td)
    refine ⟨?_, ?_, ?_⟩
    · rw [List.foldl_cons, h1]
      show (db.tasks ++ [mkTask (maxId (db.tasks.map (fun t => t.id)) + 1) bid td]).map
          taskProj ++ tds.map tdProj = _
      rw [List.map_append]
      simp [taskProj, tdProj, mkTask]
    · rw [List.foldl_cons, h2]; rfl
    · rw [List.foldl_cons, h3]; rfl

theorem persistBranches_spec (sid : Nat) :
    ∀ (bds : List BranchData) (db : DB),
      (persistBranches sid bds db).branches.map branchProj
          = db.branches.map branchProj
            ++ bds.map (fun bd => (sid, bd.name.getD "Branch", "active"))
        ∧ (persistBranches sid bds db).tasks.map taskProj
            = db.tasks.map taskProj ++ (bds.flatMap (fun bd => bd.tasks)).map tdProj
        ∧ (persistBranches sid bds db).sessions = db.sessions := by
  intro bds
  induction bds with
  | nil => intro db; exact ⟨by simp [persistBranches], by simp [persistBranches], rfl⟩
  | cons bd bds ih =>
    intro db
    obtain ⟨h1, h2, h3⟩ := ih (addBranch sid db bd)
    obtain ⟨t1, t2, t3⟩ := addTask_fold_spec (maxId (db.branches.map (fun b => b.id)) + 1)
      bd.tasks { db with branches := db.branches
        ++ [⟨maxId (db.branches.map (fun b => b.id)) + 1, sid, bd.name.getD "Branch",
          "active"⟩] }
    refine ⟨?_, ?_, ?_⟩
    · show (persistBranches sid bds (addBranch sid db bd)).branches.map branchProj = _
      rw [h1]
      rw [show (addBranch sid db bd).branches = db.branches
        ++ [⟨maxId (db.branches.map (fun b => b.id)) + 1, sid, bd.name.getD "Branch",
          "active"⟩] from t2]
      rw [List.map_append]
      simp [branchProj]
    · show (persistBranches sid bds (addBranch sid db bd)).tasks.map taskProj = _
      rw [h2]
      rw [show (addBranch sid db bd).tasks.map taskProj
        = db.tasks.map taskProj ++ bd.tasks.map tdProj from t1]
      rw [List.flatMap_cons, List.map_append, List.append_assoc]
    · show (persistBranches sid bds (addBranch sid db bd)).sessions = _
      rw [h3]
      exact t3

/-- Claim C8. For every branch descriptor returned by planning, the plan
builder creates exactly one branch record with status `active` (and the
descriptor name, defaulted), and for every task descriptor one task record
whose status defaults to `pending` when absent, whose priority defaults to
5 when absent, and whose dependency list defaults to empty when absent —
all appended after the pre-existing rows, in descriptor order. -/
theorem claim_plan_builder_defaults (bds : List BranchData)
    (payload_prompt : String) (db : DB) (hp : strStrip payload_prompt ≠ "") :
    (start_research (Except.ok bds) payload_prompt db).1 = .ok (nextSessionId db) ∧
      (start_research (Except.ok bds) payload_prompt db).2.branches.map branchProj
          = db.branches.map branchProj
            ++ bds.map (fun bd => (nextSessionId db, bd.name.getD "Branch", "active")) ∧
        (start_research (Except.ok bds) payload_prompt db).2.tasks.map taskProj
          = db.tasks.map taskProj ++ (bds.flatMap (fun bd => bd.tasks)).map tdProj := by
  obtain ⟨h1, h2, _⟩ := persistBranches_spec (nextSessionId db) bds
    { db with sessions := db.sessions
      ++ [⟨nextSessionId db, strStrip payload_prompt, "pending", none⟩] }
  refine ⟨?_, ?_, ?_⟩
  · simp only [start_research, if_neg hp]
  · simp only [start_research, if_neg hp]
    exact h1
  · simp only [start_research, if_neg hp]
    exact h2

theorem claim_plan_builder_defaults_witness :
    strStrip "go" ≠ "" ∧
      (start_research (Except.ok [⟨some "Branch A",
            [⟨some "t1", some "Physicist", none, none, none⟩,
             ⟨none, none, some "running", some 9, some ["task-7"]⟩]⟩,
          ⟨none, []⟩]) "go" dbOneSession).1 = .ok (nextSessionId dbOneSession) ∧
        (start_research (Except.ok [⟨some "Branch A",
              [⟨some "t1", some "Physicist", none, none, none⟩,
               ⟨none, none, some "running", some 9, some ["task-7"]⟩]⟩,
            ⟨none, []⟩]) "go" dbOneSession).2.branches.map branchProj
            = [(2, "Branch A", "active"), (2, "Branch", "active")] ∧
          (start_research (Except.ok [⟨some "Branch A",
                [⟨some "t1", some "Physicist", none, none, none⟩,
                 ⟨none, none, some "running", some 9, some ["task-7"]⟩]⟩,
              ⟨none, []⟩]) "go" dbOneSession).2.tasks.map taskProj
            = [("t1", "Physicist", "pending", 5, []),
               ("", "Agent", "running", 9, ["task-7"])] := by
  have h := claim_plan_builder_defaults [⟨some "Branch A",
      [⟨some "t1", some "Physicist", none, none, none⟩,
       ⟨none, none, some "running", some 9, some ["task-7"]⟩]⟩,
    ⟨none, []⟩] "go" dbOneSession (by decide)
  refine ⟨by decide, h.1, ?_, ?_⟩
  · rw [h.2.1]; decide
  · rw [h.2.2]; decide

/-- Claim C4 (code bug). The claim says the synthesis step never fails the
session: a backlog-exhausted session always reaches `completed` with a
non-null `final_synthesis`, falling back to a fixed message when the
synthesis call fails. The service function `synthesize_research` does
return the fixed fallback when its generate call fails — but the
orchestration never reaches it: on a session with zero pending tasks the
run crashes with the uncaught `UnboundLocalError` before the synthesis
trigger, so synthesis is triggered zero times and the session stays
`running` with a null `final_synthesis`. -/
theorem claim_synthesis_graceful_bug :
    pendingTasks dbOneSession 1 = [] ∧
      synthesize_research true (Except.error "boom")
          = Except.ok "Could not synthesize final report." ∧
        synthCount (run_research_loop true oracleOk (Except.ok "report") 3 1
            dbOneSession).trace = 0 ∧
          (findSession (run_research_loop true oracleOk (Except.ok "report") 3 1
              dbOneSession).db 1).map ResearchSession.status = some "running" ∧
            (findSession (run_research_loop true oracleOk (Except.ok "report") 3 1
                dbOneSession).db 1).map ResearchSession.final_synthesis = some none := by
  refine ⟨by decide, rfl, by decide, by decide, by decide⟩

end ResearchColossus
